import Mathlib

/-!
Verification of the weather-station server's inference pipeline
(backend/app.py history snapshot 20260112212641) against its
natural-language specification.

The numeric domain of the Python code (64-bit floats over small sensor
values and integer thresholds) is embedded with exact rationals; labels
are the literal strings the code returns.
-/

namespace WeatherStation

/-- A sensor reading as consumed by the training pipeline.  Numeric fields
are the five features `prepare_training_data` extracts; `timestamp` models
the numeric-epoch branch of `_parse_ts` (`none` stands for a missing or
unparseable timestamp, which falls back to the insertion index). -/
structure Item where
  temperature : ℚ
  humidity : ℚ
  air_quality : ℚ
  light_intensity : ℚ
  battery_voltage : ℚ
  timestamp : Option ℤ
deriving Repr, DecidableEq

/-- Label derivation, lines 808-846 (`_label_from_features`): polluted-air
override, then temperature band, humidity band, and the fixed priority
table over the band pair.  The Python guard `if air_quality and
air_quality > 300` tests truthiness of `air_quality` first; `0 > 300` is
false anyway, so the conjunction is kept verbatim. -/
def _label_from_features (temp humidity air_quality : ℚ) : String :=
  if air_quality ≠ 0 ∧ 300 < air_quality then "Polluted"
  else
    let tband : String :=
      if temp < 15 then "cold"
      else if temp < 20 then "cool"
      else if temp < 25 then "normal"
      else if temp < 30 then "warm"
      else if temp < 35 then "hot"
      else "very_hot"
    let hband : String :=
      if humidity < 30 then "dry"
      else if humidity < 60 then "normal"
      else if humidity < 80 then "humid"
      else "very_humid"
    if (tband = "very_hot" ∨ tband = "hot") ∧ (hband = "humid" ∨ hband = "very_humid") then "Hot Humid"
    else if (tband = "very_hot" ∨ tband = "hot") ∧ hband = "dry" then "Hot Dry"
    else if (tband = "very_hot" ∨ tband = "hot") ∧ hband = "normal" then "Very Hot"
    else if tband = "warm" ∧ hband = "very_humid" then "Very Humid"
    else if (tband = "cold" ∨ tband = "cool") ∧ (hband = "very_humid" ∨ hband = "humid") then "Cool Humid"
    else if tband = "cold" ∨ tband = "cool" then "Cold"
    else "Normal"

/-- The per-item labelling cascade written inline in the (displaced) body of
`prepare_training_data` (lines 908-949: the `condition` computation).  It
duplicates the cascade of `_label_from_features` textually rather than
calling it. -/
def prepare_training_data_label (temp humidity air_quality : ℚ) : String :=
  if air_quality ≠ 0 ∧ 300 < air_quality then "Polluted"
  else
    let tband : String :=
      if temp < 15 then "cold"
      else if temp < 20 then "cool"
      else if temp < 25 then "normal"
      else if temp < 30 then "warm"
      else if temp < 35 then "hot"
      else "very_hot"
    let hband : String :=
      if humidity < 30 then "dry"
      else if humidity < 60 then "normal"
      else if humidity < 80 then "humid"
      else "very_humid"
    if (tband = "very_hot" ∨ tband = "hot") ∧ (hband = "humid" ∨ hband = "very_humid") then "Hot Humid"
    else if (tband = "very_hot" ∨ tband = "hot") ∧ hband = "dry" then "Hot Dry"
    else if (tband = "very_hot" ∨ tband = "hot") ∧ hband = "normal" then "Very Hot"
    else if tband = "warm" ∧ hband = "very_humid" then "Very Humid"
    else if (tband = "cold" ∨ tband = "cool") ∧ (hband = "very_humid" ∨ hband = "humid") then "Cool Humid"
    else if tband = "cold" ∨ tband = "cool" then "Cold"
    else "Normal"

/-- Light bins of `FuzzyForecastEngine` (lines 1266-1272); an upper bound of
`none` embeds `float("inf")`. -/
def light_bins : List (String × ℚ × Option ℚ) :=
  [("Gelap", 0, some 50),
   ("Mendung", 50, some 1000),
   ("Berawan", 1000, some 10000),
   ("Cerah", 10000, some 50000),
   ("Terik", 50000, none)]

/-- One bin test of `classify_light` (line 1282): `lux >= lo and lux < hi`;
for the unbounded bin every finite lux is below `float("inf")`. -/
def bin_matches (lux : ℚ) (bin : String × ℚ × Option ℚ) : Bool :=
  decide (bin.2.1 ≤ lux) && (match bin.2.2 with
    | some hi => decide (lux < hi)
    | none => true)

/-- Loop of `classify_light` (lines 1280-1284): first matching bin, else the
fall-through default "Cerah". -/
def classify_light (lux : ℚ) : String :=
  match light_bins.find? (bin_matches lux) with
  | some bin => bin.1
  | none => "Cerah"

/-- Rain-probability rule (lines 1286-1298): weighted normalized scores with
light-label adjustment, scaled to a percentage. -/
def rain_probability (temp_c humidity lux : ℚ) : ℚ :=
  let humidity_score := min 1 (max 0 ((humidity - 55) / 45))
  let light_score := min 1 (max 0 ((10000 - lux) / 10000))
  let temp_score := min 1 (max 0 ((temp_c - 28) / 12))
  let risk := 55/100 * humidity_score + 35/100 * light_score + 10/100 * temp_score
  let light_label := classify_light lux
  let risk :=
    if light_label = "Terik" then risk * (6/10)
    else if light_label = "Gelap" then min 1 (risk * (115/100))
    else risk
  min 1 (max 0 risk) * 100

/-- Python's built-in `max` over a nonempty list (empty case never reached by
the guarded call sites; 0 is a junk value there). -/
def max_q : List ℚ → ℚ
  | [] => 0
  | x :: xs => xs.foldl max x

/-- Python's built-in `min` over a nonempty list. -/
def min_q : List ℚ → ℚ
  | [] => 0
  | x :: xs => xs.foldl min x

/-- Sort key used by `_fit_linear` line 1337 (`key=lambda it: it[0]`). -/
def fitKeyLe (a b : ℚ × ℚ) : Prop := a.1 ≤ b.1

instance : DecidableRel fitKeyLe := fun a b => inferInstanceAs (Decidable (a.1 ≤ b.1))

instance : IsTotal (ℚ × ℚ) fitKeyLe := ⟨fun a b => le_total a.1 b.1⟩

instance : IsTrans (ℚ × ℚ) fitKeyLe := ⟨fun _ _ _ h h' => le_trans h h'⟩

/-- The `(x, y)` pairs `_fit_linear` actually regresses over (lines
1337-1344): sort the series by timestamp (Python `sorted` is a stable sort,
embedded by a stable sort), keep the last 30 points, set `x` to minutes
before the most recent timestamp `t0` (`(ts - t0).total_seconds()/60.0`,
timestamps carried here in seconds).  Returned as a list of `(x, y)` pairs. -/
def fit_points (series : List (ℚ × ℚ)) : List (ℚ × ℚ) :=
  let s := series.insertionSort fitKeyLe
  let t0 := (s.getLastD (0, 0)).1
  let tail := s.drop (s.length - 30)
  tail.map (fun p => ((p.1 - t0) / 60, p.2))

/-- The time span `max(xs) - min(xs)` of the regression abscissae (line
1345). -/
def fit_span (series : List (ℚ × ℚ)) : ℚ :=
  let xs := (fit_points series).map (fun p => p.1)
  max_q xs - min_q xs

/-- Least-squares slope/intercept for `y = a*x + b` over the given points:
the closed form of the degree-1 `np.polyfit` call (line 1348). -/
def lsq_coeffs (pts : List (ℚ × ℚ)) : ℚ × ℚ :=
  let n : ℚ := pts.length
  let sx := (pts.map (fun p => p.1)).sum
  let sy := (pts.map (fun p => p.2)).sum
  let sxx := (pts.map (fun p => p.1 * p.1)).sum
  let sxy := (pts.map (fun p => p.1 * p.2)).sum
  let denom := n * sxx - sx * sx
  let a := (n * sxy - sx * sy) / denom
  (a, (sy - a * sx) / n)

/-- Linear-trend fit, lines 1330-1351 (`_fit_linear`): `None` for fewer than
3 points; sort, keep last 30, convert to minutes before now; `None` when
`not xs` or `-0.5 < max(xs)-min(xs) < 0.5`; otherwise the least-squares
coefficients. -/
def _fit_linear (series : List (ℚ × ℚ)) : Option (ℚ × ℚ) :=
  if series.length < 3 then none
  else
    let pts := fit_points series
    let xs := pts.map (fun p => p.1)
    if xs.isEmpty ∨ (-(1/2) < max_q xs - min_q xs ∧ max_q xs - min_q xs < 1/2) then none
    else some (lsq_coeffs pts)

/-- Sum of squared residuals of the line `y = a*x + b` on the given points;
the objective `np.polyfit` minimizes. -/
def sse (pts : List (ℚ × ℚ)) (a b : ℚ) : ℚ :=
  (pts.map (fun p => (p.2 - (a * p.1 + b))^2)).sum

/-- Hourly projection helper `predict_val` of `forecast_3h` (lines
1389-1399): hold the current value when there is no fit, else evaluate the
fitted line at the horizon; clamp to the optional bounds. -/
def predict_val (now_val : ℚ) (fit : Option (ℚ × ℚ)) (horizon_minutes : ℚ)
    (clamp_lo clamp_hi : Option ℚ) : ℚ :=
  let v := match fit with
    | none => now_val
    | some ab => ab.2 + ab.1 * horizon_minutes
  let v := match clamp_lo with
    | some lo => max lo v
    | none => v
  match clamp_hi with
  | some hi => min hi v
  | none => v

/- Training pipeline: chronological split (lines 1014-1050). -/

/-- Timestamp resolution `_parse_ts` (lines 1015-1036) restricted to the
shapes the embedded `Item` carries: a parseable timestamp is an epoch
instant, a missing/unparseable one falls back to the insertion index
treated as an epoch (`datetime.fromtimestamp(idx)`). -/
def _parse_ts (ts_raw : Option ℤ) (idx : ℕ) : ℤ :=
  match ts_raw with
  | some t => t
  | none => (idx : ℤ)

/-- Key list `time_keys` (line 1038): `(resolved timestamp, index)` pairs. -/
def time_keys (timestamps : List (Option ℤ)) : List (ℤ × ℕ) :=
  (List.range timestamps.length).map (fun i => (_parse_ts (timestamps.getD i none) i, i))

/-- Sort key of line 1040 (`key=lambda x: x[0]`). -/
def tkeyLe (a b : ℤ × ℕ) : Prop := a.1 ≤ b.1

instance : DecidableRel tkeyLe := fun a b => inferInstanceAs (Decidable (a.1 ≤ b.1))

instance : IsTotal (ℤ × ℕ) tkeyLe := ⟨fun a b => le_total a.1 b.1⟩

instance : IsTrans (ℤ × ℕ) tkeyLe := ⟨fun _ _ _ h h' => le_trans h h'⟩

/-- `sorted_indices` (line 1040): indices in ascending resolved-timestamp
order (Python `sorted` is stable; embedded by a stable sort). -/
def sorted_indices (timestamps : List (Option ℤ)) : List ℕ :=
  ((time_keys timestamps).insertionSort tkeyLe).map (fun p => p.2)

/-- Split index of line 1045: `max(1, min(n - 1, int(n * 0.8)))`.  For every
list length `n` (far below 2^51) the float product `n * 0.8` truncates to
`⌊4n/5⌋`, embedded exactly with natural division. -/
def split_idx (n : ℕ) : ℕ := max 1 (min (n - 1) (4 * n / 5))

/-- The split-index formula in the words of the specification:
`clamp(round(0.8*n), 1, n-1)`, with true rounding.  Kept separate from
`split_idx` (the code's formula) for comparison. -/
def split_idx_spec (n : ℕ) : ℤ := max 1 (min ((n : ℤ) - 1) (round ((4 * n : ℚ) / 5)))

/-- Train/test index partition (lines 1045-1047): samples strictly before
the split index train, the rest test. -/
def train_test_indices (timestamps : List (Option ℤ)) : List ℕ × List ℕ :=
  let si := sorted_indices timestamps
  (si.take (split_idx si.length), si.drop (split_idx si.length))

/-- Numpy fancy indexing `X[idx_list]` over an embedded list. -/
def select {α : Type} (l : List α) (idx : List ℕ) : List α :=
  idx.filterMap (fun i => l.get? i)

/- Augmentor (lines 848-887 and 1052-1061). -/

/-- Componentwise addition of a gaussian jitter vector to a feature vector
(`src + jitter`, line 880). -/
def jitter_add (src jit : List ℚ) : List ℚ := List.zipWith (· + ·) src jit

/-- Distinct labels in first-appearance order.  `np.unique` returns them
sorted; every property proved below depends only on the set of distinct
labels and their counts, never on that order, and first-appearance order is
kernel-computable for concrete inputs. -/
def np_unique (l : List String) : List String :=
  l.foldl (fun acc x => if x ∈ acc then acc else acc ++ [x]) []

/-- One label's pass of the `_oversample_minority` loop (lines 868-882):
skip labels at or above the minimum (`continue`), otherwise append
`needed` jittered copies cycling through that label's samples; the counter
tracks how many jitter draws have been consumed. -/
def oversample_step (X_train : List (List ℚ)) (y_train : List String)
    (rng : ℕ → List ℚ) (min_per_class : ℕ)
    (acc : (List (List ℚ) × List String) × ℕ) (label : String) :
    (List (List ℚ) × List String) × ℕ :=
  let count := y_train.count label
  if min_per_class ≤ count then acc
  else
    let needed := min_per_class - count
    let samples := ((X_train.zip y_train).filter (fun p => p.2 = label)).map (fun p => p.1)
    if samples.isEmpty then acc
    else
      ((acc.1.1 ++ (List.range needed).map
          (fun i => jitter_add (samples.getD (i % samples.length) []) (rng (acc.2 + i))),
        acc.1.2 ++ (List.range needed).map (fun _ => label)),
       acc.2 + needed)

/-- Minority oversampling `_oversample_minority` (lines 863-887): for every
distinct training label with fewer than `min_per_class` examples, append
jittered copies of that label's samples (cycling through them) until the
minimum is met.  The gaussian generator is abstracted as a stream `rng` of
jitter vectors consumed one per generated sample, starting at draw `k0`. -/
def _oversample_minority (X_train : List (List ℚ)) (y_train : List String)
    (rng : ℕ → List ℚ) (k0 : ℕ) (min_per_class : ℕ) :
    List (List ℚ) × List String :=
  ((np_unique y_train).foldl (oversample_step X_train y_train rng min_per_class)
    ((X_train, y_train), k0)).1

/-- Archetype feature vectors for forced single-class training (lines
1001-1006), as `(temperature, humidity, air_quality, light_intensity,
battery_voltage)` tuples. -/
def archetypes : List (ℚ × ℚ × ℚ × ℚ × ℚ) :=
  [(10, 50, 50, 100, 38/10),
   (38, 35, 80, 1200, 39/10),
   (26, 85, 90, 800, 4),
   (24, 60, 80, 500, 38/10)]

/-- Synthetic sample generation `_generate_synthetic_features` (lines
848-861): `n_each` jittered copies per archetype, labelled through
`_label_from_features` on the jittered values.  One 5-component jitter
vector is drawn per copy from the stream `rng` starting at draw `k0`; the
result also returns the next unused draw index. -/
def _generate_synthetic_features (archs : List (ℚ × ℚ × ℚ × ℚ × ℚ))
    (rng : ℕ → List ℚ) (k0 : ℕ) (n_each : ℕ) :
    (List (List ℚ) × List String) × ℕ :=
  archs.foldl (fun acc arch =>
      let fresh := (List.range n_each).map (fun i =>
        jitter_add [arch.1, arch.2.1, arch.2.2.1, arch.2.2.2.1, arch.2.2.2.2] (rng (acc.2 + i)))
      ((acc.1.1 ++ fresh,
        acc.1.2 ++ fresh.map (fun f => _label_from_features (f.getD 0 0) (f.getD 1 0) (f.getD 2 0))),
       acc.2 + n_each))
    (([], []), k0)

/-- The augmentation step of `train_model` (lines 1052-1061): append the
synthetic samples (if forced single-class) to the training partition only,
then oversample training minorities; the test partition is not an input of
either mechanism and is returned as it came. -/
def augment_training_partition (needs_synthetic : Bool)
    (syn_X : List (List ℚ)) (syn_y : List String)
    (X_train : List (List ℚ)) (y_train : List String)
    (X_test : List (List ℚ)) (y_test : List String)
    (rng : ℕ → List ℚ) (k0 : ℕ) (min_per : ℕ) :
    (List (List ℚ) × List String) × (List (List ℚ) × List String) :=
  let Xy1 := if needs_synthetic then (X_train ++ syn_X, y_train ++ syn_y) else (X_train, y_train)
  (_oversample_minority Xy1.1 Xy1.2 rng k0 min_per, (X_test, y_test))

/- Evaluation, metrics record and persistence (lines 1063-1161,771-799). -/

/-- Accuracy (`model.score`): fraction of positions where prediction equals
truth. -/
def accuracy_q (y_true y_pred : List String) : ℚ :=
  if y_true.length = 0 then 0
  else ((y_true.zip y_pred).countP (fun p => p.1 = p.2) : ℚ) / y_true.length

/-- First-appearance-ordered majority label of `Counter(y).most_common(1)`
(line 1084-1085): the earliest-inserted label of maximal count. -/
def most_common_label (y : List String) : String :=
  match np_unique y with
  | [] => ""
  | l0 :: rest => rest.foldl (fun best cand => if y.count best < y.count cand then cand else best) l0

/-- Baseline majority accuracy (lines 1083-1088): share of the majority
*training* label inside the *test* set, 0 for an empty test set, capped at
1. -/
def baseline_majority_accuracy (y_train y_test : List String) : ℚ :=
  let majority_label := most_common_label y_train
  let baseline_acc : ℚ := if y_test.length = 0 then 0
    else (y_test.count majority_label : ℚ) / y_test.length
  min 1 baseline_acc

/-- Evaluation-validity gate over the test partition (lines 1090-1094):
force `NON_VALID` (and note whether the warning was appended) when the test
set has fewer than 2 distinct labels or any test label has fewer than 2
instances. -/
def evaluation_gate (evaluation_mode : String) (y_test : List String) : String × Bool :=
  let u := np_unique y_test
  if u.length < 2 ∨ u.any (fun lbl => y_test.count lbl < 2) then ("NON_VALID", true)
  else (evaluation_mode, false)

/-- The `last_metrics` record assembled on a completed run (lines
1126-1142). -/
structure LastMetrics where
  status : String
  evaluation_mode : String
  metrics_trusted : Bool
  synthetic_used : Bool
  warnings : List String
  train_accuracy : ℚ
  test_accuracy : Option ℚ
  macro_f1 : Option ℚ
  balanced_accuracy : Option ℚ
  baseline_majority_accuracy : ℚ
  confusion_matrix : List (List ℕ)
  labels : List String
  all_counts : List (String × ℕ)
  train_counts : List (String × ℕ)
  test_counts : List (String × ℕ)
deriving Repr, DecidableEq

/-- Metric finalization of `train_model` (lines 1090-1142): run the test
gate, mark trust (`metrics_trusted = (evaluation_mode == "VALID")`), null
the untrusted numeric metrics, keep train accuracy and the (re-capped)
baseline always visible, and assemble `last_metrics`. -/
def build_last_metrics (status : String) (evaluation_mode0 : String) (synthetic_used : Bool)
    (warnings0 : List String) (train_score test_score macro_f1 bal_acc : ℚ)
    (y_train y_test : List String) (labels : List String) (cm : List (List ℕ))
    (all_counts train_counts test_counts : List (String × ℕ)) : LastMetrics :=
  let gate := evaluation_gate evaluation_mode0 y_test
  let evaluation_mode := gate.1
  let warnings := if gate.2
    then warnings0 ++ ["Distribusi test set tidak memadai (kelas <2). Metrik tidak representatif."]
    else warnings0
  let baseline_acc := baseline_majority_accuracy y_train y_test
  let metrics_trusted : Bool := evaluation_mode = "VALID"
  { status := status
    evaluation_mode := evaluation_mode
    metrics_trusted := metrics_trusted
    synthetic_used := synthetic_used
    warnings := warnings
    train_accuracy := train_score
    test_accuracy := if metrics_trusted then some test_score else none
    macro_f1 := if metrics_trusted then some macro_f1 else none
    balanced_accuracy := if metrics_trusted then some bal_acc else none
    baseline_majority_accuracy := if metrics_trusted then baseline_acc else min 1 baseline_acc
    confusion_matrix := cm
    labels := labels
    all_counts := all_counts
    train_counts := train_counts
    test_counts := test_counts }

/-- Model metadata record (lines 1145-1154). -/
structure ModelMeta where
  version : String
  training_seed : ℤ
  training_samples : ℕ
  training_samples_train : ℕ
  training_samples_test : ℕ
  synthetic_used : Bool
  evaluation_mode : String
  metrics_trusted : Bool
deriving Repr, DecidableEq

/-- The value stored in `self.last_metrics`: either one of the rejection
records of lines 974/993 or the full record of lines 1126-1142. -/
inductive MetricsRecord
  | rejection (status message evaluation_mode : String) (label_distribution : List (String × ℕ))
  | full (m : LastMetrics)
deriving Repr, DecidableEq

/-- The mutable in-memory fields of `WeatherAIModel` the pipeline touches. -/
structure ModelState where
  trained : Bool
  model_trained_at : Option String
  accuracy : Option ℚ
  last_metrics : Option MetricsRecord
  model_meta : Option ModelMeta
deriving Repr, DecidableEq

/-- State of the metadata sidecar file.  Unlike the model and scaler
artifacts it is written with a plain truncating `open(meta_path, 'w')`
plus `json.dump` (lines 791-793), not via `_atomic_write`, so a failure
during that step leaves a torn file (truncated or partially written
JSON), not the previous contents. -/
inductive MetaFileState
  | absent
  | intact (m : ModelMeta)
  | torn
deriving Repr, DecidableEq

/-- The persisted artifacts (model file, scaler file, metadata sidecar);
model and scaler objects are tracked as opaque tokens. -/
structure Store where
  model_file : Option ℕ
  scaler_file : Option ℕ
  meta_file : MetaFileState
deriving Repr, DecidableEq

/-- Failure injection for `save_model`: which of its three write steps (if
any) raises.  The model and scaler steps use `_atomic_write` (lines
771-775: dump to a temp file, then rename), so a failing step never
changes its own target; the metadata step does not — its truncating open
tears the previous sidecar on failure.  Steps already completed keep
their new contents. -/
inductive SaveFail
  | noFail
  | atModelDump
  | atScalerDump
  | atMetaWrite
deriving Repr, DecidableEq

/-- Persistence `save_model` (lines 777-799): atomically write model and
scaler, then write the metadata sidecar with a plain truncating open; any
exception is caught and reported as `False`, leaving the remaining writes
undone.  A model or scaler dump failure leaves its own target unchanged;
a metadata write failure leaves the sidecar torn. -/
def save_model (model_obj scaler_obj : ℕ) (meta : ModelMeta) (store : Store)
    (fail : SaveFail) : Store × Bool :=
  match fail with
  | .atModelDump => (store, false)
  | .atScalerDump => ({ store with model_file := some model_obj }, false)
  | .atMetaWrite =>
      ({ model_file := some model_obj, scaler_file := some scaler_obj,
         meta_file := .torn }, false)
  | .noFail =>
      ({ model_file := some model_obj, scaler_file := some scaler_obj,
         meta_file := .intact meta }, true)

/-- Tail of `train_model` (lines 1122-1161): set the in-memory trained
state and metrics FIRST, then attempt the atomic save; report failure when
the save fails, performing no rollback of the in-memory fields. -/
def train_model_tail (st : ModelState) (trained_at : String) (metrics : LastMetrics)
    (meta : ModelMeta) (test_score : ℚ) (model_obj scaler_obj : ℕ) (store : Store)
    (fail : SaveFail) : Bool × ModelState × Store :=
  let st1 : ModelState :=
    { st with
      trained := true
      model_trained_at := some trained_at
      accuracy := if metrics.metrics_trusted then some test_score else none
      last_metrics := some (.full metrics)
      model_meta := some meta }
  let sres := save_model model_obj scaler_obj meta store fail
  if sres.2 then (true, st1, sres.1) else (false, st1, sres.1)

/-- Macro-averaged F1 (`f1_score(..., average='macro', zero_division=0)`,
line 1079): mean, over the distinct labels of truth and prediction, of the
per-label harmonic mean of precision and recall, with 0 whenever a
denominator vanishes. -/
def macro_f1_score (y_true y_pred : List String) : ℚ :=
  let labels := np_unique (y_true ++ y_pred)
  if labels.length = 0 then 0
  else
    let f1s := labels.map (fun lbl =>
      let pairs := y_true.zip y_pred
      let tp : ℚ := pairs.countP (fun p => p.1 = lbl ∧ p.2 = lbl)
      let fp : ℚ := pairs.countP (fun p => p.1 ≠ lbl ∧ p.2 = lbl)
      let fn : ℚ := pairs.countP (fun p => p.1 = lbl ∧ p.2 ≠ lbl)
      let prec := if tp + fp = 0 then 0 else tp / (tp + fp)
      let recl := if tp + fn = 0 then 0 else tp / (tp + fn)
      if prec + recl = 0 then 0 else 2 * prec * recl / (prec + recl))
    f1s.sum / labels.length

/-- Balanced accuracy (`balanced_accuracy_score`, line 1080): mean recall
over the classes present in the truth. -/
def balanced_accuracy_score (y_true y_pred : List String) : ℚ :=
  let labels := np_unique y_true
  if labels.length = 0 then 0
  else
    let recalls := labels.map (fun lbl =>
      let pairs := y_true.zip y_pred
      let tp : ℚ := pairs.countP (fun p => p.1 = lbl ∧ p.2 = lbl)
      let cnt : ℚ := y_true.count lbl
      if cnt = 0 then 0 else tp / cnt)
    recalls.sum / labels.length

/-- Confusion matrix over a fixed label list (line 1081): entry `(i, j)`
counts samples whose truth is `labels[i]` and prediction `labels[j]`. -/
def confusion_matrix_counts (labels : List String) (y_true y_pred : List String) :
    List (List ℕ) :=
  labels.map (fun li => labels.map (fun lj =>
    (y_true.zip y_pred).countP (fun p => p.1 = li ∧ p.2 = lj)))

/-- External collaborators and per-run ambient inputs of one `train_model`
call: the scikit-learn scaler and classifier fits (pure transformers fitted
on the scaled training data), the gaussian jitter stream, the run seed and
timestamps, the config minimum per class, the fitted artifact tokens and
the persistence outcome. -/
structure TrainEnv where
  scaler_fit : List (List ℚ) → (List ℚ → List ℚ)
  model_fit : List (List ℚ) → List String → (List ℚ → String)
  rng : ℕ → List ℚ
  seed : ℤ
  trained_at : String
  version_uuid : String
  min_per : ℕ
  model_token : ℕ
  scaler_token : ℕ
  save_fail : SaveFail

/-- Body of `train_model` from line 979 on, reached only after
`prepare_training_data` has produced the feature matrix, labels and raw
timestamps.  Mirrors: label distribution, variety rejection, forced
synthetic scheduling, minor-class `NON_VALID` marking, chronological split,
augmentation, scaling, fit, evaluation, gate, metadata, atomic save. -/
def train_model_body (env : TrainEnv) (st : ModelState) (store : Store)
    (force_single_class : Bool) (X : List (List ℚ)) (y : List String)
    (timestamps : List (Option ℤ)) : Bool × ModelState × Store :=
  let unique_labels := np_unique y
  let label_counts := unique_labels.map (fun l => (l, y.count l))
  if unique_labels.length < 2 ∧ force_single_class = false then
    (false,
     { st with last_metrics := some (.rejection "DATA_INSUFFICIENT_VARIETY"
         "AI: Training dibatalkan, hanya ada 1 kelas label pada data nyata."
         "NON_VALID" label_counts) },
     store)
  else
    let needs_synthetic : Bool := unique_labels.length < 2 && force_single_class
    let evaluation_mode := if needs_synthetic then "NON_VALID" else "VALID"
    let synthetic_used := needs_synthetic
    let minor_class := unique_labels.any (fun l => y.count l < 2)
    let evaluation_mode := if minor_class then "NON_VALID" else evaluation_mode
    let warnings := if minor_class
      then ["Kelas minor <2; evaluasi tidak representatif (NON_VALID). Tidak pakai stratify."]
      else []
    let tti := train_test_indices timestamps
    let X_train := select X tti.1
    let y_train := select y tti.1
    let X_test := select X tti.2
    let y_test := select y tti.2
    let gen := if needs_synthetic then _generate_synthetic_features archetypes env.rng 0 3
      else (([], []), 0)
    let aug := augment_training_partition needs_synthetic gen.1.1 gen.1.2
      X_train y_train X_test y_test env.rng gen.2 env.min_per
    let Xtr := aug.1.1
    let ytr := aug.1.2
    let all_counts := unique_labels.map (fun l => (l, y.count l))
    let train_counts := (np_unique ytr).map (fun l => (l, ytr.count l))
    let test_counts := (np_unique y_test).map (fun l => (l, y_test.count l))
    let tf := env.scaler_fit Xtr
    let X_train_scaled := Xtr.map tf
    let X_test_scaled := X_test.map tf
    let predict := env.model_fit X_train_scaled ytr
    let y_test_pred := X_test_scaled.map predict
    let train_score := accuracy_q ytr (X_train_scaled.map predict)
    let test_score := accuracy_q y_test y_test_pred
    let mf1 := macro_f1_score y_test y_test_pred
    let ba := balanced_accuracy_score y_test y_test_pred
    let cm := confusion_matrix_counts unique_labels y_test y_test_pred
    let metrics := build_last_metrics "OK" evaluation_mode synthetic_used warnings
      train_score test_score mf1 ba ytr y_test unique_labels cm
      all_counts train_counts test_counts
    let meta : ModelMeta :=
      { version := env.version_uuid
        training_seed := env.seed
        training_samples := y.length
        training_samples_train := ytr.length
        training_samples_test := y_test.length
        synthetic_used := synthetic_used
        evaluation_mode := metrics.evaluation_mode
        metrics_trusted := metrics.metrics_trusted }
    train_model_tail st env.trained_at metrics meta test_score
      env.model_token env.scaler_token store env.save_fail

/-- The body-less `prepare_training_data` of the snapshot (lines 801-806):
the function consists of a docstring only — its intended implementation
sits unreachable after the `return` of `_oversample_minority` (lines
888-957) — so every call returns `None`. -/
def prepare_training_data (_data : List Item) :
    Option (List (List ℚ) × List String × List (Option ℤ)) :=
  none

/-- Training orchestrator `train_model` (lines 959-1165).  With fewer than
50 samples the rejection branch evaluates `dict(Counter(y))` with `y` still
unassigned (it is first assigned at line 978), so an `UnboundLocalError` is
raised before `self.last_metrics` is written and the outer handler returns
`False`.  Otherwise line 978 unpacks the `None` returned by the body-less
`prepare_training_data`: a `TypeError`, again caught by the outer handler,
returning `False` with all state untouched. -/
def train_model (env : TrainEnv) (st : ModelState) (store : Store)
    (local_data : List Item) (force_single_class : Bool) : Bool × ModelState × Store :=
  if local_data.length < 50 then (false, st, store)
  else
    match prepare_training_data local_data with
    | none => (false, st, store)
    | some xyt => train_model_body env st store force_single_class xyt.1 xyt.2.1 xyt.2.2

/- Single-flight training guard (lines 1466, 2533-2545, 2620-2622). -/

/-- Guard state: the `ai_training_in_progress` flag plus a ghost count of
currently executing background training runs. -/
structure GuardState where
  in_progress : Bool
  active_runs : ℕ
deriving Repr, DecidableEq

/-- Initial module state (line 1466): no training in progress. -/
def guard_init : GuardState := ⟨false, 0⟩

/-- The two answers the `train_ai_model` endpoint can give once past the
readiness check (lines 2535-2545, 2626-2635). -/
inductive TriggerResult
  | training_in_progress
  | training_started
deriving Repr, DecidableEq

/-- Atomic check-and-set of the endpoint (lines 2533-2545, under
`ai_training_lock`): an active run answers `training_in_progress` and
changes nothing; otherwise the flag is set and a background run starts. -/
def train_ai_model_trigger (s : GuardState) : TriggerResult × GuardState :=
  if s.in_progress then (.training_in_progress, s)
  else (.training_started, ⟨true, s.active_runs + 1⟩)

/-- How one background `_run_train` can end. -/
inductive RunOutcome
  | success
  | failure
  | raised
deriving Repr, DecidableEq

/-- End of `_run_train` (lines 2620-2622): the `finally` block clears the
flag for every outcome, exceptions included. -/
def _run_train_finish (_o : RunOutcome) (s : GuardState) : GuardState :=
  ⟨false, s.active_runs - 1⟩

/-- Events touching the guard. -/
inductive GuardEvent
  | trigger
  | finish (o : RunOutcome)

/-- One guard transition. -/
def guard_step (s : GuardState) (e : GuardEvent) : GuardState :=
  match e with
  | .trigger => (train_ai_model_trigger s).2
  | .finish o => _run_train_finish o s

/-- Guard state after a sequence of trigger/finish events from startup. -/
def guard_run (events : List GuardEvent) : GuardState :=
  events.foldl guard_step guard_init

/- The 60-sample scenario dataset of the specification. -/

/-- Sample `i` of the scenario dataset: the three feature vectors
alternate, timestamps are parseable and increasing. -/
def c1_item (i : ℕ) : Item :=
  if i % 3 = 0 then
    { temperature := 36, humidity := 35, air_quality := 80
      light_intensity := 500, battery_voltage := 39/10, timestamp := some i }
  else if i % 3 = 1 then
    { temperature := 24, humidity := 50, air_quality := 40
      light_intensity := 500, battery_voltage := 39/10, timestamp := some i }
  else
    { temperature := 10, humidity := 40, air_quality := 30
      light_intensity := 500, battery_voltage := 39/10, timestamp := some i }

/-- The 60-sample alternating dataset of the scenario (20 of each vector). -/
def c1_dataset : List Item := (List.range 60).map c1_item

/-- The rule-based labels the training label-generation step derives for a
list of items. -/
def derived_labels (data : List Item) : List String :=
  data.map (fun it => prepare_training_data_label it.temperature it.humidity it.air_quality)

/- Helper lemmas. -/

lemma baseline_majority_accuracy_le_one (a b : List String) :
    baseline_majority_accuracy a b ≤ 1 := by
  unfold baseline_majority_accuracy
  exact min_le_left _ _

lemma guard_step_inv (s : GuardState) (e : GuardEvent)
    (h : s.active_runs = if s.in_progress then 1 else 0) :
    (guard_step s e).active_runs = if (guard_step s e).in_progress then 1 else 0 := by
  cases e with
  | trigger =>
    by_cases hp : s.in_progress <;> simp [guard_step, train_ai_model_trigger, hp, h]
  | finish o =>
    by_cases hp : s.in_progress <;> simp [hp] at h <;>
      simp [guard_step, _run_train_finish, h]

lemma guard_run_inv (events : List GuardEvent) :
    (guard_run events).active_runs = if (guard_run events).in_progress then 1 else 0 := by
  have main : ∀ (l : List GuardEvent) (s : GuardState),
      s.active_runs = (if s.in_progress then 1 else 0) →
      (l.foldl guard_step s).active_runs = if (l.foldl guard_step s).in_progress then 1 else 0 := by
    intro l
    induction l with
    | nil => intro s h; simpa using h
    | cons e t ih => intro s h; exact ih _ (guard_step_inv s e h)
  exact main events guard_init rfl

lemma oversample_step_extends (X : List (List ℚ)) (y : List String) (rng : ℕ → List ℚ)
    (m : ℕ) (acc : (List (List ℚ) × List String) × ℕ) (label : String) :
    ∃ a b, (oversample_step X y rng m acc label).1.1 = acc.1.1 ++ a
      ∧ (oversample_step X y rng m acc label).1.2 = acc.1.2 ++ b := by
  simp only [oversample_step]
  split_ifs
  · exact ⟨[], [], by simp, by simp⟩
  · exact ⟨[], [], by simp, by simp⟩
  · exact ⟨_, _, rfl, rfl⟩

lemma oversample_extends (X : List (List ℚ)) (y : List String) (rng : ℕ → List ℚ)
    (k0 m : ℕ) :
    ∃ a b, _oversample_minority X y rng k0 m = (X ++ a, y ++ b) := by
  unfold _oversample_minority
  have main : ∀ (labels : List String) (acc : (List (List ℚ) × List String) × ℕ),
      (∃ a b, acc.1 = (X ++ a, y ++ b)) →
      ∃ a b, (labels.foldl (oversample_step X y rng m) acc).1 = (X ++ a, y ++ b) := by
    intro labels
    induction labels with
    | nil => intro acc h; exact h
    | cons l t ih =>
      intro acc h
      apply ih
      obtain ⟨a, b, hab⟩ := h
      obtain ⟨a', b', h1, h2⟩ := oversample_step_extends X y rng m acc l
      refine ⟨a ++ a', b ++ b', ?_⟩
      have e1 : acc.1.1 = X ++ a := by rw [hab]
      have e2 : acc.1.2 = y ++ b := by rw [hab]
      have g1 := h1.trans (by rw [e1, List.append_assoc])
      have g2 := h2.trans (by rw [e2, List.append_assoc])
      exact Prod.ext g1 g2
  exact main _ _ ⟨[], [], by simp⟩

lemma sorted_indices_perm (ts : List (Option ℤ)) :
    (sorted_indices ts).Perm (List.range ts.length) := by
  unfold sorted_indices
  have h1 : ((time_keys ts).insertionSort tkeyLe).Perm (time_keys ts) :=
    List.perm_insertionSort _ _
  refine (h1.map (fun p : ℤ × ℕ => p.2)).trans ?_
  unfold time_keys
  rw [List.map_map]
  have hc : ((fun p : ℤ × ℕ => p.2) ∘ fun i => (_parse_ts (ts.getD i none) i, i))
      = fun i => i := rfl
  rw [hc]
  simp

lemma sorted_indices_length (ts : List (Option ℤ)) :
    (sorted_indices ts).length = ts.length := by
  have := (sorted_indices_perm ts).length_eq
  simpa using this

lemma sorted_indices_nodup (ts : List (Option ℤ)) : (sorted_indices ts).Nodup :=
  (sorted_indices_perm ts).symm.nodup (List.nodup_range _)

lemma mem_time_keys_fst (ts : List (Option ℤ)) (p : ℤ × ℕ) (hp : p ∈ time_keys ts) :
    p.1 = _parse_ts (ts.getD p.2 none) p.2 := by
  unfold time_keys at hp
  obtain ⟨i, _, hi⟩ := List.mem_map.mp hp
  rw [← hi]

lemma sorted_indices_sorted (ts : List (Option ℤ)) :
    List.Pairwise (fun i j => _parse_ts (ts.getD i none) i ≤ _parse_ts (ts.getD j none) j)
      (sorted_indices ts) := by
  unfold sorted_indices
  rw [List.pairwise_map]
  have hs : List.Pairwise tkeyLe ((time_keys ts).insertionSort tkeyLe) :=
    List.sorted_insertionSort tkeyLe (time_keys ts)
  refine List.Pairwise.imp_of_mem ?_ hs
  intro a b ha hb hab
  have ha' := mem_time_keys_fst ts a ((List.perm_insertionSort tkeyLe (time_keys ts)).subset ha)
  have hb' := mem_time_keys_fst ts b ((List.perm_insertionSort tkeyLe (time_keys ts)).subset hb)
  rw [← ha', ← hb']
  exact hab

end WeatherStation

namespace WeatherStation

/-- C1: on the 60-sample alternating scenario dataset the derived labels
are Very Hot, Normal and Cold, 20 each — yet `train_model` with
`force_single_class = false` can never reach the success path: the
body-less `prepare_training_data` returns `None`, line 978 fails to unpack
it, and the run reports failure with the model state and the persisted
artifacts untouched, for every environment and prior state. -/
theorem c1_sixty_sample_training_run_fails :
    (derived_labels c1_dataset).count "Very Hot" = 20
    ∧ (derived_labels c1_dataset).count "Normal" = 20
    ∧ (derived_labels c1_dataset).count "Cold" = 20
    ∧ c1_dataset.length = 60
    ∧ ∀ (env : TrainEnv) (st : ModelState) (store : Store),
        train_model env st store c1_dataset false = (false, st, store) :=
  ⟨by decide, by decide, by decide, by decide, fun _ _ _ => rfl⟩

/-- C2 counterexample: a run that reaches the persistence step with
`trained = false` and whose scaler write fails ends with the run reported
failed but `trained = true` (flipped), and with the previously persisted
model artifact already replaced. -/
theorem c2_persistence_failure_counterexample :
    (train_model_tail ⟨false, none, none, none, none⟩ "t"
        ⟨"OK", "NON_VALID", false, false, [], 1, none, none, none, 1, [], [], [], [], []⟩
        ⟨"v", 0, 60, 48, 12, false, "NON_VALID", false⟩ (1/2) 1 1
        ⟨some 0, some 0, .absent⟩ .atScalerDump).1 = false
    ∧ (train_model_tail ⟨false, none, none, none, none⟩ "t"
        ⟨"OK", "NON_VALID", false, false, [], 1, none, none, none, 1, [], [], [], [], []⟩
        ⟨"v", 0, 60, 48, 12, false, "NON_VALID", false⟩ (1/2) 1 1
        ⟨some 0, some 0, .absent⟩ .atScalerDump).2.1.trained = true
    ∧ (train_model_tail ⟨false, none, none, none, none⟩ "t"
        ⟨"OK", "NON_VALID", false, false, [], 1, none, none, none, 1, [], [], [], [], []⟩
        ⟨"v", 0, 60, 48, 12, false, "NON_VALID", false⟩ (1/2) 1 1
        ⟨some 0, some 0, .absent⟩ .atScalerDump).2.2.model_file = some 1 := by
  decide

/-- C2 (amended): a training run whose save step fails always reports
failure, but the in-memory `trained` flag is set to `true` before the save
attempt and keeps that value regardless of the prior state.  The model and
scaler writes are individually atomic: a failing model write leaves the
whole store unchanged, a failing scaler write leaves the scaler artifact
and the sidecar unchanged (the model artifact is already replaced).  The
metadata sidecar write is NOT atomic (truncating open + json.dump): a
failure there leaves both artifacts replaced and the previous sidecar
torn, not preserved. -/
theorem c2_failed_persistence_amended (st : ModelState) (trained_at : String)
    (metrics : LastMetrics) (meta : ModelMeta) (test_score : ℚ) (mo so : ℕ)
    (store : Store) (fail : SaveFail) (h : fail ≠ SaveFail.noFail) :
    (train_model_tail st trained_at metrics meta test_score mo so store fail).1 = false
    ∧ (train_model_tail st trained_at metrics meta test_score mo so store fail).2.1.trained = true
    ∧ (fail = .atModelDump →
        (train_model_tail st trained_at metrics meta test_score mo so store fail).2.2 = store)
    ∧ (fail = .atScalerDump →
        (train_model_tail st trained_at metrics meta test_score mo so store fail).2.2.scaler_file
            = store.scaler_file
        ∧ (train_model_tail st trained_at metrics meta test_score mo so store fail).2.2.meta_file
            = store.meta_file)
    ∧ (fail = .atMetaWrite →
        (train_model_tail st trained_at metrics meta test_score mo so store fail).2.2.model_file
            = some mo
        ∧ (train_model_tail st trained_at metrics meta test_score mo so store fail).2.2.scaler_file
            = some so
        ∧ (train_model_tail st trained_at metrics meta test_score mo so store fail).2.2.meta_file
            = .torn) := by
  cases fail with
  | noFail => exact absurd rfl h
  | atModelDump => simp [train_model_tail, save_model]
  | atScalerDump => simp [train_model_tail, save_model]
  | atMetaWrite => simp [train_model_tail, save_model]

/-- C2 witness: the amended statement at a concrete failing run. -/
theorem c2_failed_persistence_amended_witness :
    (SaveFail.atModelDump ≠ SaveFail.noFail)
    ∧ (train_model_tail ⟨true, none, none, none, none⟩ "t"
        ⟨"OK", "VALID", true, false, [], 1, some 1, some 1, some 1, 1, [], [], [], [], []⟩
        ⟨"w", 7, 60, 48, 12, false, "VALID", true⟩ (3/4) 2 2
        ⟨none, none, .absent⟩ .atModelDump).1 = false :=
  ⟨by decide,
   (c2_failed_persistence_amended ⟨true, none, none, none, none⟩ "t"
      ⟨"OK", "VALID", true, false, [], 1, some 1, some 1, some 1, 1, [], [], [], [], []⟩
      ⟨"w", 7, 60, 48, 12, false, "VALID", true⟩ (3/4) 2 2
      ⟨none, none, .absent⟩ .atModelDump (by decide)).1⟩

/-- C3 counterexample: the code truncates `0.8 * n` (`int(...)`), the claim
rounds it; at `n = 6` the code splits at 4 while the claimed
`clamp(round(0.8*6), 1, 5)` is 5. -/
theorem c3_split_round_counterexample :
    split_idx 6 = 4 ∧ split_idx_spec 6 = 5 ∧ (split_idx 6 : ℤ) ≠ split_idx_spec 6 := by
  have h : split_idx_spec 6 = 5 := by
    unfold split_idx_spec
    rw [round_eq]
    norm_num
  refine ⟨by decide, h, ?_⟩
  rw [h]
  decide

/-- C3 (amended): for every dataset of `n ≥ 2` samples the orchestrator
sorts ascending by resolved timestamp and splits at
`clamp(floor(0.8*n), 1, n-1)`; the index satisfies `1 ≤ split ≤ n-1`,
train is the sorted samples before the index, test the rest, and the two
index partitions are disjoint and exhaustive — never a random split. -/
theorem c3_chronological_split_amended (ts : List (Option ℤ)) (h : 2 ≤ ts.length) :
    (1 ≤ split_idx ts.length ∧ split_idx ts.length ≤ ts.length - 1)
    ∧ (train_test_indices ts).1 = (sorted_indices ts).take (split_idx ts.length)
    ∧ (train_test_indices ts).2 = (sorted_indices ts).drop (split_idx ts.length)
    ∧ (train_test_indices ts).1 ++ (train_test_indices ts).2 = sorted_indices ts
    ∧ (sorted_indices ts).Perm (List.range ts.length)
    ∧ List.Pairwise
        (fun i j => _parse_ts (ts.getD i none) i ≤ _parse_ts (ts.getD j none) j)
        (sorted_indices ts)
    ∧ ∀ i ∈ (train_test_indices ts).1, i ∉ (train_test_indices ts).2 := by
  have hlen := sorted_indices_length ts
  refine ⟨?_, ?_, ?_, ?_, sorted_indices_perm ts, sorted_indices_sorted ts, ?_⟩
  · unfold split_idx
    omega
  · simp only [train_test_indices]
    rw [hlen]
  · simp only [train_test_indices]
    rw [hlen]
  · simp only [train_test_indices]
    exact List.take_append_drop _ _
  · intro i hi hj
    simp only [train_test_indices] at hi hj
    exact List.disjoint_take_drop (sorted_indices_nodup ts) le_rfl hi hj

/-- C3 witness: the amended split properties at a concrete 3-sample
timestamp list (two parseable, one falling back to its index). -/
theorem c3_chronological_split_amended_witness :
    (1 ≤ split_idx ([some 5, some 1, none] : List (Option ℤ)).length
      ∧ split_idx ([some 5, some 1, none] : List (Option ℤ)).length
          ≤ ([some 5, some 1, none] : List (Option ℤ)).length - 1)
    ∧ (train_test_indices [some 5, some 1, none]).1
        = (sorted_indices [some 5, some 1, none]).take
            (split_idx ([some 5, some 1, none] : List (Option ℤ)).length)
    ∧ (train_test_indices [some 5, some 1, none]).2
        = (sorted_indices [some 5, some 1, none]).drop
            (split_idx ([some 5, some 1, none] : List (Option ℤ)).length)
    ∧ (train_test_indices [some 5, some 1, none]).1 ++ (train_test_indices [some 5, some 1, none]).2
        = sorted_indices [some 5, some 1, none]
    ∧ (sorted_indices [some 5, some 1, none]).Perm
        (List.range ([some 5, some 1, none] : List (Option ℤ)).length)
    ∧ List.Pairwise
        (fun i j => _parse_ts (([some 5, some 1, none] : List (Option ℤ)).getD i none) i
          ≤ _parse_ts (([some 5, some 1, none] : List (Option ℤ)).getD j none) j)
        (sorted_indices [some 5, some 1, none])
    ∧ ∀ i ∈ (train_test_indices ([some 5, some 1, none] : List (Option ℤ))).1,
        i ∉ (train_test_indices ([some 5, some 1, none] : List (Option ℤ))).2 :=
  c3_chronological_split_amended [some 5, some 1, none] (by decide)

/-- C4: a training call on a buffer of fewer than 50 samples aborts with
failure and leaves the model state (in particular `last_metrics` and
`trained`) and the persisted store exactly as they were — the
`DATA_TOO_SMALL` record is never written, because the rejection branch
raises `UnboundLocalError` on `Counter(y)` before `last_metrics` is
assigned. -/
theorem c4_small_dataset_rejected_without_recording (env : TrainEnv) (st : ModelState)
    (store : Store) (data : List Item) (force : Bool) (h : data.length < 50) :
    train_model env st store data force = (false, st, store) := by
  unfold train_model
  rw [if_pos h]

/-- C4 witness: the empty buffer. -/
theorem c4_small_dataset_rejected_without_recording_witness :
    ([] : List Item).length < 50
    ∧ train_model ⟨fun _ x => x, fun _ _ _ => "", fun _ => [], 0, "", "", 10, 1, 1, .noFail⟩
        ⟨false, none, none, none, none⟩ ⟨none, none, .absent⟩ [] false
      = (false, ⟨false, none, none, none, none⟩, ⟨none, none, .absent⟩) :=
  ⟨by decide,
   c4_small_dataset_rejected_without_recording
     ⟨fun _ x => x, fun _ _ _ => "", fun _ => [], 0, "", "", 10, 1, 1, .noFail⟩
     ⟨false, none, none, none, none⟩ ⟨none, none, .absent⟩ [] false (by decide)⟩

/-- C5: in every completed-run metrics record, `metrics_trusted = false`
forces `evaluation_mode = "NON_VALID"` with test accuracy, macro F1 and
balanced accuracy all unset, while the train accuracy and the capped
(≤ 1) baseline majority accuracy are always present. -/
theorem c5_untrusted_metrics_invariant (status mode0 : String) (syn : Bool)
    (warns : List String) (tr te mf ba : ℚ) (ytr yte labels : List String)
    (cm : List (List ℕ)) (ac tc sc : List (String × ℕ))
    (hmode : mode0 = "VALID" ∨ mode0 = "NON_VALID") :
    ((build_last_metrics status mode0 syn warns tr te mf ba ytr yte labels cm ac tc sc).metrics_trusted = false →
      (build_last_metrics status mode0 syn warns tr te mf ba ytr yte labels cm ac tc sc).evaluation_mode = "NON_VALID"
      ∧ (build_last_metrics status mode0 syn warns tr te mf ba ytr yte labels cm ac tc sc).test_accuracy = none
      ∧ (build_last_metrics status mode0 syn warns tr te mf ba ytr yte labels cm ac tc sc).macro_f1 = none
      ∧ (build_last_metrics status mode0 syn warns tr te mf ba ytr yte labels cm ac tc sc).balanced_accuracy = none)
    ∧ (build_last_metrics status mode0 syn warns tr te mf ba ytr yte labels cm ac tc sc).train_accuracy = tr
    ∧ (build_last_metrics status mode0 syn warns tr te mf ba ytr yte labels cm ac tc sc).baseline_majority_accuracy ≤ 1 := by
  by_cases hg : (np_unique yte).length < 2 ∨
      ((np_unique yte).any fun lbl => decide (List.count lbl yte < 2)) = true
  · simp only [build_last_metrics, evaluation_gate, if_pos hg]
    simp [baseline_majority_accuracy_le_one]
  · simp only [build_last_metrics, evaluation_gate, if_neg hg]
    rcases hmode with h | h <;> subst h <;> simp [baseline_majority_accuracy_le_one]

/-- C5 witness: the invariant at a concrete untrusted run (single test
label, `NON_VALID` incoming mode). -/
theorem c5_untrusted_metrics_invariant_witness :
    ((build_last_metrics "OK" "NON_VALID" true [] 1 1 1 1 ["A"] ["A"] ["A"] [[1]] [] [] []).metrics_trusted = false →
      (build_last_metrics "OK" "NON_VALID" true [] 1 1 1 1 ["A"] ["A"] ["A"] [[1]] [] [] []).evaluation_mode = "NON_VALID"
      ∧ (build_last_metrics "OK" "NON_VALID" true [] 1 1 1 1 ["A"] ["A"] ["A"] [[1]] [] [] []).test_accuracy = none
      ∧ (build_last_metrics "OK" "NON_VALID" true [] 1 1 1 1 ["A"] ["A"] ["A"] [[1]] [] [] []).macro_f1 = none
      ∧ (build_last_metrics "OK" "NON_VALID" true [] 1 1 1 1 ["A"] ["A"] ["A"] [[1]] [] [] []).balanced_accuracy = none)
    ∧ (build_last_metrics "OK" "NON_VALID" true [] 1 1 1 1 ["A"] ["A"] ["A"] [[1]] [] [] []).train_accuracy = 1
    ∧ (build_last_metrics "OK" "NON_VALID" true [] 1 1 1 1 ["A"] ["A"] ["A"] [[1]] [] [] []).baseline_majority_accuracy ≤ 1 :=
  c5_untrusted_metrics_invariant "OK" "NON_VALID" true [] 1 1 1 1 ["A"] ["A"] ["A"] [[1]] [] [] []
    (Or.inr rfl)

/-- C6: the augmentation step returns the test partition exactly as it
came (same length, same samples) — synthetic samples and minority
oversampling only ever append to the training partition. -/
theorem c6_augmentation_preserves_test_partition :
    ∀ (needs : Bool) (synX Xtr Xte : List (List ℚ)) (synY Ytr Yte : List String)
      (rng : ℕ → List ℚ) (k0 minPer : ℕ),
      (augment_training_partition needs synX synY Xtr Ytr Xte Yte rng k0 minPer).2 = (Xte, Yte)
      ∧ ∃ a b, (augment_training_partition needs synX synY Xtr Ytr Xte Yte rng k0 minPer).1
          = ((if needs then Xtr ++ synX else Xtr) ++ a, (if needs then Ytr ++ synY else Ytr) ++ b) := by
  intro needs synX Xtr Xte synY Ytr Yte rng k0 minPer
  constructor
  · rfl
  · unfold augment_training_partition
    cases needs
    · simpa using oversample_extends Xtr Ytr rng k0 minPer
    · obtain ⟨a, b, hab⟩ := oversample_extends (Xtr ++ synX) (Ytr ++ synY) rng k0 minPer
      exact ⟨a, b, by simpa [List.append_assoc] using hab⟩

/-- C7: the single-flight guard — a trigger arriving while a run is active
is answered `training_in_progress` and changes nothing; `_run_train`
clears the flag for every outcome (exceptions included); and along every
event sequence at most one training run is active. -/
theorem c7_single_flight_guard :
    (∀ s : GuardState, s.in_progress = true →
      train_ai_model_trigger s = (.training_in_progress, s))
    ∧ (∀ (o : RunOutcome) (s : GuardState), (_run_train_finish o s).in_progress = false)
    ∧ (∀ events : List GuardEvent, (guard_run events).active_runs ≤ 1) := by
  refine ⟨?_, ?_, ?_⟩
  · intro s h
    simp [train_ai_model_trigger, h]
  · intro o s
    rfl
  · intro events
    have h := guard_run_inv events
    by_cases hp : (guard_run events).in_progress <;> simp [hp] at h <;> omega

/-- C7 witness: a trigger against an active run at a concrete state. -/
theorem c7_single_flight_guard_witness :
    train_ai_model_trigger ⟨true, 1⟩ = (.training_in_progress, ⟨true, 1⟩) :=
  c7_single_flight_guard.1 ⟨true, 1⟩ rfl

/-- C8: the labelling cascade written inline in the training
label-generation step agrees with `_label_from_features` on every input —
the two labelings can never disagree. -/
theorem c8_label_derivations_agree :
    ∀ temp humidity air_quality : ℚ,
      prepare_training_data_label temp humidity air_quality
        = _label_from_features temp humidity air_quality :=
  fun _ _ _ => rfl

/-- C10: every strictly negative lux value falls outside all bins
(including the `[0,50)` Dark bin) and `classify_light` returns the
fall-through Clear label "Cerah", not Dark. -/
theorem c10_negative_lux_classified_clear (lux : ℚ) (h : lux < 0) :
    classify_light lux = "Cerah" := by
  have h0 : ¬ ((0:ℚ) ≤ lux) := not_le.mpr h
  have h1 : ¬ ((50:ℚ) ≤ lux) := fun hc => h0 (le_trans (by norm_num) hc)
  have h2 : ¬ ((1000:ℚ) ≤ lux) := fun hc => h0 (le_trans (by norm_num) hc)
  have h3 : ¬ ((10000:ℚ) ≤ lux) := fun hc => h0 (le_trans (by norm_num) hc)
  have h4 : ¬ ((50000:ℚ) ≤ lux) := fun hc => h0 (le_trans (by norm_num) hc)
  simp [classify_light, light_bins, List.find?, bin_matches, h0, h1, h2, h3, h4]

/-- C10 witness: lux = -1. -/
theorem c10_negative_lux_classified_clear_witness :
    (-1 : ℚ) < 0 ∧ classify_light (-1) = "Cerah" :=
  ⟨by norm_num, c10_negative_lux_classified_clear (-1) (by norm_num)⟩

lemma le_foldl_max (l : List ℚ) : ∀ acc : ℚ, acc ≤ l.foldl max acc := by
  induction l with
  | nil => intro acc; exact le_refl _
  | cons x xs ih => intro acc; exact le_trans (le_max_left acc x) (ih (max acc x))

lemma mem_le_foldl_max (l : List ℚ) : ∀ (acc y : ℚ), y ∈ l → y ≤ l.foldl max acc := by
  induction l with
  | nil => intro acc y hy; cases hy
  | cons x xs ih =>
    intro acc y hy
    rcases List.mem_cons.mp hy with h | h
    · subst h
      exact le_trans (le_max_right acc y) (le_foldl_max xs _)
    · exact ih _ y h

lemma foldl_max_mem (l : List ℚ) : ∀ acc : ℚ, l.foldl max acc ∈ acc :: l := by
  induction l with
  | nil => intro acc; simp
  | cons x xs ih =>
    intro acc
    rcases List.mem_cons.mp (ih (max acc x)) with h | h
    · rw [List.foldl_cons, h]
      rcases max_choice acc x with hm | hm <;> rw [hm] <;> simp
    · simp [List.mem_cons_of_mem, h]

lemma foldl_min_le (l : List ℚ) : ∀ acc : ℚ, l.foldl min acc ≤ acc := by
  induction l with
  | nil => intro acc; exact le_refl _
  | cons x xs ih => intro acc; exact le_trans (ih (min acc x)) (min_le_left acc x)

lemma foldl_min_le_mem (l : List ℚ) : ∀ (acc y : ℚ), y ∈ l → l.foldl min acc ≤ y := by
  induction l with
  | nil => intro acc y hy; cases hy
  | cons x xs ih =>
    intro acc y hy
    rcases List.mem_cons.mp hy with h | h
    · subst h
      exact le_trans (foldl_min_le xs _) (min_le_right acc y)
    · exact ih _ y h

lemma foldl_min_mem (l : List ℚ) : ∀ acc : ℚ, l.foldl min acc ∈ acc :: l := by
  induction l with
  | nil => intro acc; simp
  | cons x xs ih =>
    intro acc
    rcases List.mem_cons.mp (ih (min acc x)) with h | h
    · rw [List.foldl_cons, h]
      rcases min_choice acc x with hm | hm <;> rw [hm] <;> simp
    · simp [List.mem_cons_of_mem, h]

lemma max_q_mem (l : List ℚ) (h : l ≠ []) : max_q l ∈ l := by
  cases l with
  | nil => exact absurd rfl h
  | cons x xs => exact foldl_max_mem xs x

lemma le_max_q (l : List ℚ) (y : ℚ) (hy : y ∈ l) : y ≤ max_q l := by
  cases l with
  | nil => cases hy
  | cons x xs =>
    rcases List.mem_cons.mp hy with h | h
    · subst h; exact le_foldl_max xs y
    · exact mem_le_foldl_max xs x y h

lemma min_q_mem (l : List ℚ) (h : l ≠ []) : min_q l ∈ l := by
  cases l with
  | nil => exact absurd rfl h
  | cons x xs => exact foldl_min_mem xs x

lemma min_q_le (l : List ℚ) (y : ℚ) (hy : y ∈ l) : min_q l ≤ y := by
  cases l with
  | nil => cases hy
  | cons x xs =>
    rcases List.mem_cons.mp hy with h | h
    · subst h; exact foldl_min_le xs y
    · exact foldl_min_le_mem xs x y h

lemma span_nonneg (l : List ℚ) (h : l ≠ []) : 0 ≤ max_q l - min_q l := by
  have := min_q_le l (max_q l) (max_q_mem l h)
  linarith

-- residual sums
lemma resid_sum (pts : List (ℚ × ℚ)) (a b : ℚ) :
    (pts.map (fun p => p.2 - (a * p.1 + b))).sum
      = (pts.map (fun p => p.2)).sum - a * (pts.map (fun p => p.1)).sum - pts.length * b := by
  induction pts with
  | nil => simp
  | cons p l ih =>
    simp only [List.map_cons, List.sum_cons, ih, List.length_cons]
    push_cast
    ring

lemma xresid_sum (pts : List (ℚ × ℚ)) (a b : ℚ) :
    (pts.map (fun p => p.1 * (p.2 - (a * p.1 + b)))).sum
      = (pts.map (fun p => p.1 * p.2)).sum - a * (pts.map (fun p => p.1 * p.1)).sum
        - b * (pts.map (fun p => p.1)).sum := by
  induction pts with
  | nil => simp
  | cons p l ih =>
    simp only [List.map_cons, List.sum_cons, ih]
    ring

lemma sse_decomp (pts : List (ℚ × ℚ)) (a b a2 b2 : ℚ) :
    sse pts a2 b2 = sse pts a b
      + 2 * (a - a2) * (pts.map (fun p => p.1 * (p.2 - (a * p.1 + b)))).sum
      + 2 * (b - b2) * (pts.map (fun p => p.2 - (a * p.1 + b))).sum
      + (pts.map (fun p => ((a - a2) * p.1 + (b - b2))^2)).sum := by
  induction pts with
  | nil => simp [sse]
  | cons p l ih =>
    simp only [sse, List.map_cons, List.sum_cons] at ih ⊢
    linear_combination ih

lemma sum_sq_sub_mean (xs : List ℚ) (mu : ℚ) :
    (xs.map (fun x => (x - mu)^2)).sum
      = (xs.map (fun x => x * x)).sum - 2 * mu * xs.sum + xs.length * mu^2 := by
  induction xs with
  | nil => simp
  | cons x l ih =>
    simp only [List.map_cons, List.sum_cons, ih, List.length_cons]
    push_cast
    ring

lemma sum_pos_of_mem_pos : ∀ (l : List ℚ), (∀ x ∈ l, 0 ≤ x) →
    ∀ x : ℚ, x ∈ l → 0 < x → 0 < l.sum := by
  intro l
  induction l with
  | nil => intro _ x hx; cases hx
  | cons a t ih =>
    intro h0 x hx hpos
    have hts : 0 ≤ t.sum := List.sum_nonneg (fun y hy => h0 y (List.mem_cons_of_mem _ hy))
    have has : 0 ≤ a := h0 a (List.mem_cons_self _ _)
    rcases List.mem_cons.mp hx with h | h
    · subst h
      simp only [List.sum_cons]
      linarith
    · have := ih (fun y hy => h0 y (List.mem_cons_of_mem _ hy)) x h hpos
      simp only [List.sum_cons]
      linarith

lemma denom_pos_of_two_ne (xs : List ℚ) (u v : ℚ) (hu : u ∈ xs) (hv : v ∈ xs)
    (huv : u ≠ v) :
    0 < (xs.length : ℚ) * (xs.map (fun x => x * x)).sum - xs.sum * xs.sum := by
  have hn0 : 0 < xs.length := List.length_pos.mpr (List.ne_nil_of_mem hu)
  have hn : 0 < (xs.length : ℚ) := by exact_mod_cast hn0
  have hnne : (xs.length : ℚ) ≠ 0 := ne_of_gt hn
  have key : (xs.map (fun x => (x - xs.sum / xs.length)^2)).sum
      = (xs.map (fun x => x * x)).sum - xs.sum * xs.sum / xs.length := by
    rw [sum_sq_sub_mean]
    field_simp
    ring
  have h0 : ∀ z ∈ xs.map (fun x => (x - xs.sum / xs.length)^2), 0 ≤ z := by
    intro z hz
    obtain ⟨x, _, rfl⟩ := List.mem_map.mp hz
    positivity
  have hdev : 0 < (xs.map (fun x => (x - xs.sum / xs.length)^2)).sum := by
    rcases eq_or_ne u (xs.sum / xs.length) with hu2 | hu2
    · have hv2 : v - xs.sum / xs.length ≠ 0 := sub_ne_zero.mpr (by rw [← hu2]; exact fun he => huv he.symm)
      exact sum_pos_of_mem_pos _ h0 ((v - xs.sum / xs.length)^2)
        (List.mem_map_of_mem _ hv) (by positivity)
    · have hu3 : u - xs.sum / xs.length ≠ 0 := sub_ne_zero.mpr hu2
      exact sum_pos_of_mem_pos _ h0 ((u - xs.sum / xs.length)^2)
        (List.mem_map_of_mem _ hu) (by positivity)
  have hmul := mul_pos hn hdev
  rw [key] at hmul
  have : (xs.length : ℚ) * ((xs.map (fun x => x * x)).sum - xs.sum * xs.sum / xs.length)
      = (xs.length : ℚ) * (xs.map (fun x => x * x)).sum - xs.sum * xs.sum := by
    field_simp
    ring
  linarith [this ▸ hmul]

lemma lsq_normal_eqs (pts : List (ℚ × ℚ))
    (hn : (pts.length : ℚ) ≠ 0)
    (hd : (pts.length : ℚ) * (pts.map (fun p => p.1 * p.1)).sum
        - (pts.map (fun p => p.1)).sum * (pts.map (fun p => p.1)).sum ≠ 0) :
    (pts.map (fun p => p.2 - ((lsq_coeffs pts).1 * p.1 + (lsq_coeffs pts).2))).sum = 0
    ∧ (pts.map (fun p => p.1 * (p.2 - ((lsq_coeffs pts).1 * p.1 + (lsq_coeffs pts).2)))).sum = 0 := by
  simp only [lsq_coeffs]
  constructor
  · rw [resid_sum]
    field_simp
    ring
  · rw [xresid_sum]
    field_simp
    ring

lemma lsq_optimal (pts : List (ℚ × ℚ))
    (hn : (pts.length : ℚ) ≠ 0)
    (hd : (pts.length : ℚ) * (pts.map (fun p => p.1 * p.1)).sum
        - (pts.map (fun p => p.1)).sum * (pts.map (fun p => p.1)).sum ≠ 0)
    (a2 b2 : ℚ) :
    sse pts (lsq_coeffs pts).1 (lsq_coeffs pts).2 ≤ sse pts a2 b2 := by
  obtain ⟨h1, h2⟩ := lsq_normal_eqs pts hn hd
  have hdec := sse_decomp pts (lsq_coeffs pts).1 (lsq_coeffs pts).2 a2 b2
  rw [h1, h2] at hdec
  have hnn : 0 ≤ (pts.map
      (fun p => (((lsq_coeffs pts).1 - a2) * p.1 + ((lsq_coeffs pts).2 - b2))^2)).sum := by
    refine List.sum_nonneg ?_
    intro z hz
    obtain ⟨q, _, rfl⟩ := List.mem_map.mp hz
    positivity
  linarith

lemma fit_points_length (series : List (ℚ × ℚ)) :
    (fit_points series).length = series.length - (series.length - 30) := by
  unfold fit_points
  rw [List.length_map, List.length_drop, (List.perm_insertionSort fitKeyLe series).length_eq]

lemma fit_linear_eq (series : List (ℚ × ℚ)) :
    _fit_linear series =
      if series.length < 3 ∨ fit_span series < 1/2 then none
      else some (lsq_coeffs (fit_points series)) := by
  unfold _fit_linear
  by_cases h3 : series.length < 3
  · simp [h3]
  · have hne : (fit_points series).map (fun p => p.1) ≠ [] := by
      intro he
      have h0 : ((fit_points series).map (fun p => p.1)).length = 0 := by
        rw [he]
        rfl
      rw [List.length_map, fit_points_length] at h0
      omega
    have hsp := span_nonneg _ hne
    simp only [if_neg h3, fit_span]
    by_cases hlt : max_q ((fit_points series).map fun p => p.1)
        - min_q ((fit_points series).map fun p => p.1) < 1/2
    · have hc1 : (((fit_points series).map fun p => p.1).isEmpty = true
          ∨ (-(1/2) < max_q ((fit_points series).map fun p => p.1)
                - min_q ((fit_points series).map fun p => p.1)
              ∧ max_q ((fit_points series).map fun p => p.1)
                - min_q ((fit_points series).map fun p => p.1) < 1/2)) :=
        Or.inr ⟨by linarith, hlt⟩
      have hc2 : (series.length < 3
          ∨ max_q ((fit_points series).map fun p => p.1)
              - min_q ((fit_points series).map fun p => p.1) < 1/2) := Or.inr hlt
      rw [if_pos hc1, if_pos hc2]
    · have hc1 : ¬ (((fit_points series).map fun p => p.1).isEmpty = true
          ∨ (-(1/2) < max_q ((fit_points series).map fun p => p.1)
                - min_q ((fit_points series).map fun p => p.1)
              ∧ max_q ((fit_points series).map fun p => p.1)
                - min_q ((fit_points series).map fun p => p.1) < 1/2)) := by
        intro hor
        rcases hor with he | hand
        · exact hne (List.isEmpty_iff.mp he)
        · exact hlt hand.2
      have hc2 : ¬ (series.length < 3
          ∨ max_q ((fit_points series).map fun p => p.1)
              - min_q ((fit_points series).map fun p => p.1) < 1/2) := by
        intro hor
        rcases hor with h | h
        · exact h3 h
        · exact hlt h
      rw [if_neg hc1, if_neg hc2]

/-- C9 counterexample: a 3-point series whose regression abscissae span
exactly 0.5 minutes — "not strictly greater than 0.5", so the claim says
"no trend" — yet `_fit_linear` returns the fitted coefficients (the code's
guard is `span < 0.5`, strict). -/
theorem c9_span_boundary_counterexample :
    ([((0:ℚ),(0:ℚ)), (15,1), (30,2)] : List (ℚ × ℚ)).length = 3
    ∧ fit_span [((0:ℚ),(0:ℚ)), (15,1), (30,2)] = 1/2
    ∧ _fit_linear [((0:ℚ),(0:ℚ)), (15,1), (30,2)] = some (4, 2) := by
  refine ⟨by decide, ?_, ?_⟩
  · norm_num [fit_span, fit_points, List.insertionSort, List.orderedInsert, fitKeyLe,
      max_q, min_q]
  · norm_num [_fit_linear, fit_points, List.insertionSort, List.orderedInsert, fitKeyLe,
      max_q, min_q, lsq_coeffs]

/-- C9 (amended): the linear fit returns "no trend" (`None`) exactly when
the series has fewer than 3 points or the span of the (at most 30 most
recent) abscissae is strictly below 0.5 minutes (a span of exactly 0.5
fits); on "no trend" the projection holds the current value flat (clamped
to the variable's bounds, so exactly the current value whenever it lies
within them); and when a fit is returned, its coefficients minimize the
sum of squared residuals over the regressed points — true least squares. -/
theorem c9_fit_linear_amended (series : List (ℚ × ℚ)) (nv hz lo hi a b a2 b2 : ℚ) :
    (_fit_linear series = none ↔ (series.length < 3 ∨ fit_span series < 1/2))
    ∧ (lo ≤ nv → nv ≤ hi → predict_val nv none hz (some lo) (some hi) = nv)
    ∧ (_fit_linear series = some (a, b) →
        sse (fit_points series) a b ≤ sse (fit_points series) a2 b2) := by
  refine ⟨?_, ?_, ?_⟩
  · rw [fit_linear_eq]
    split_ifs with h
    · simpa using h
    · simpa using h
  · intro h1 h2
    simp [predict_val, max_eq_right h1, min_eq_right h2]
  · intro hsome
    rw [fit_linear_eq] at hsome
    split_ifs at hsome with h
    push_neg at h
    obtain ⟨h3, hsp⟩ := h
    have hplen : (fit_points series).length ≠ 0 := by
      rw [fit_points_length]
      omega
    have hn : ((fit_points series).length : ℚ) ≠ 0 := by exact_mod_cast hplen
    have hxne : (fit_points series).map (fun p => p.1) ≠ [] := by
      intro he
      have h0 : ((fit_points series).map (fun p => p.1)).length = 0 := by
        rw [he]
        rfl
      rw [List.length_map] at h0
      exact hplen h0
    have hspan2 : 1/2 ≤ max_q ((fit_points series).map (fun p => p.1))
        - min_q ((fit_points series).map (fun p => p.1)) := by
      simpa [fit_span] using hsp
    have hneq : max_q ((fit_points series).map (fun p => p.1))
        ≠ min_q ((fit_points series).map (fun p => p.1)) := by
      intro he
      rw [he] at hspan2
      linarith
    have hd0 := denom_pos_of_two_ne ((fit_points series).map (fun p => p.1)) _ _
      (max_q_mem _ hxne) (min_q_mem _ hxne) hneq
    rw [List.length_map, List.map_map] at hd0
    have hd : ((fit_points series).length : ℚ)
          * ((fit_points series).map (fun p => p.1 * p.1)).sum
        - ((fit_points series).map (fun p => p.1)).sum
          * ((fit_points series).map (fun p => p.1)).sum ≠ 0 := by
      have hcomp : ((fun x : ℚ => x * x) ∘ fun p : ℚ × ℚ => p.1)
          = fun p : ℚ × ℚ => p.1 * p.1 := rfl
      rw [hcomp] at hd0
      exact ne_of_gt hd0
    have heq : lsq_coeffs (fit_points series) = (a, b) := Option.some.inj hsome
    have hopt := lsq_optimal (fit_points series) hn hd a2 b2
    rw [heq] at hopt
    exact hopt

/-- C9 witness: the amended statement at a 3-point series spanning one
minute (fit `y = 2x + 2`), a flat projection inside its bounds, and the
fitted line beating the zero line on squared error. -/
theorem c9_fit_linear_amended_witness :
    (_fit_linear [((0:ℚ),(0:ℚ)), (30,1), (60,2)] = none
      ↔ (([((0:ℚ),(0:ℚ)), (30,1), (60,2)] : List (ℚ × ℚ)).length < 3
          ∨ fit_span [((0:ℚ),(0:ℚ)), (30,1), (60,2)] < 1/2))
    ∧ predict_val 5 none 60 (some 0) (some 100) = 5
    ∧ sse (fit_points [((0:ℚ),(0:ℚ)), (30,1), (60,2)]) 2 2
        ≤ sse (fit_points [((0:ℚ),(0:ℚ)), (30,1), (60,2)]) 0 0 :=
  ⟨(c9_fit_linear_amended [((0:ℚ),(0:ℚ)), (30,1), (60,2)] 5 60 0 100 2 2 0 0).1,
   (c9_fit_linear_amended [((0:ℚ),(0:ℚ)), (30,1), (60,2)] 5 60 0 100 2 2 0 0).2.1
     (by norm_num) (by norm_num),
   (c9_fit_linear_amended [((0:ℚ),(0:ℚ)), (30,1), (60,2)] 5 60 0 100 2 2 0 0).2.2
     (by norm_num [_fit_linear, fit_points, List.insertionSort, List.orderedInsert, fitKeyLe,
        max_q, min_q, lsq_coeffs])⟩

end WeatherStation

